import Mathlib

/-!
Shallow embedding of the nodgen-js user-account backend
(src/Controllers/User.js and src/model/User.model.js).

Each Express handler is embedded as a pure function from its request data
and the database state to the new state and the HTTP response.  External
collaborators (bcrypt, the mongoose ObjectId validity check, the email
format validator, the token issuer of utils/GenerateToken.js, Buffer
base64 encoding) are parameters bundled in an `Env` record: the handlers
use them only through their results, exactly as the JS code calls the
libraries.  Exceptions raised by awaited library or store calls are made
explicit as an `Option String` input carrying the thrown message (for
refreshroute, the error name, which is what its catch inspects); `some m`
routes to the handler's catch block, embedded as its own function that
mirrors the string-matching of the source.

Express semantics made explicit:
  - res.status(s) sets the response status; res.json(body) without a prior
    res.status leaves the default status 200.
  - res.cookie accumulates Set-Cookie headers; we record name, value and
    the options the source passes.

Mongoose semantics made explicit:
  - the schema of model/User.model.js is embedded as a list of field
    declarations (`userSchema`); updates are filtered through it (strict
    mode drops paths that are not declared in the schema);
  - the lowercase/trim setters declared on `email` are applied both when a
    document is saved and when an (email) query filter is cast (setters
    run on query filters in mongoose 6);
  - a query by _id on a string that is not a valid ObjectId throws a
    CastError, whose message is not one of the messages the catch blocks
    match on.
-/

/-- A field declaration of a mongoose schema, recording the options that
appear in src/model/User.model.js. -/
inductive FieldKind where
  | fstr
  | fbool
deriving DecidableEq, Repr

structure SchemaField where
  name : String
  kind : FieldKind
  required : Bool := false
  minlength : Option Nat := none
  maxlength : Option Nat := none
  unique : Bool := false
  lowercase : Bool := false
  trim : Bool := false
  hasEmailValidator : Bool := false
  boolDefault : Option Bool := none
deriving DecidableEq, Repr

/-- The User schema of src/model/User.model.js: Username, email, password,
image, isVerified (plus timestamps, which no handler reads). -/
def userSchema : List SchemaField :=
  [ { name := "Username", kind := .fstr, required := true, trim := true,
      minlength := some 2, maxlength := some 50, unique := true },
    { name := "email", kind := .fstr, required := true, unique := true,
      trim := true, lowercase := true, hasEmailValidator := true,
      maxlength := some 50 },
    { name := "password", kind := .fstr, required := true,
      minlength := some 8 },
    { name := "image", kind := .fstr },
    { name := "isVerified", kind := .fbool, required := true,
      boolDefault := some false } ]

/-- A stored User document.  `oid` is the ObjectId (_id).  The fields are
exactly those declared in `userSchema`; `markedForDeletion` is NOT declared
there, so under strict mode no write to it ever persists — the field is kept
as an `Option Bool` (none = path absent on the document, i.e. undefined in
JS) because deleteUser reads `userDetails.markedForDeletion`. -/
structure UserDoc where
  oid : String
  Username : String
  email : String
  password : String
  image : String
  isVerified : Bool
  markedForDeletion : Option Bool := none
deriving DecidableEq, Repr

/-- Modelled from the spec: the OTP collection (model/OTP.js is not under
src/).  Per the spec, an OTP record holds the email (foreign key by value)
and the numeric code, and lookup is by exact (email, otp) match with no
expiry filter. -/
structure OTPDoc where
  email : String
  otp : String
deriving DecidableEq, Repr

/-- The persistent store: the users and otps collections. -/
structure DB where
  users : List UserDoc
  otps : List OTPDoc
deriving DecidableEq, Repr

/-- External collaborators, used by the handlers exactly where the JS code
calls the corresponding library. -/
structure Env where
  /-- bcrypt.hash password salt (bcrypt output is a 60-character string). -/
  bcryptHash : String → String → String
  /-- bcrypt.compare password storedHash. -/
  bcryptCompare : String → String → Bool
  /-- validator.isEmail, used by the email field of the schema. -/
  isEmail : String → Bool
  /-- mongoose.Types.ObjectId.isValid. -/
  isValidObjectId : String → Bool
  /-- AccessToken(userId) of utils/GenerateToken.js. -/
  accessToken : String → String
  /-- RefreshToken(userId) of utils/GenerateToken.js. -/
  refreshToken : String → String
  /-- req.file.buffer.toString applied with base64 encoding. -/
  base64 : List Nat → String

/-- A Set-Cookie header, recording the options the source passes. -/
structure Cookie where
  name : String
  value : String
  httpOnly : Bool := false
  secure : Bool := false
  sameSiteStrict : Bool := false
  maxAgeMs : Option Nat := none
  expiresEpoch0 : Bool := false
deriving DecidableEq, Repr

/-- The JSON body of a response, by shape as the source builds it. -/
inductive Body where
  /-- res.json never called (not produced by any embedded handler). -/
  | empty
  /-- res.json with a message field. -/
  | msg (message : String)
  /-- res.json with an error field. -/
  | err (error : String)
  /-- res.json of a bare string. -/
  | str (s : String)
  /-- the token payload of register and login. -/
  | auth (accessToken refreshToken userId email : String)
  /-- the payload of refreshroute. -/
  | refreshPair (accessTok refreshTok : String)
  /-- res.json with a data field holding the user document. -/
  | data (u : UserDoc)
deriving DecidableEq, Repr

structure Response where
  status : Nat
  body : Body
  cookies : List Cookie := []
deriving DecidableEq, Repr

/-- Whitespace trim, written on the character list (String.trim itself is
a byte-level loop; this is the same operation stated structurally). -/
def strTrim (s : String) : String :=
  String.mk
    (((s.data.dropWhile Char.isWhitespace).reverse.dropWhile
        Char.isWhitespace).reverse)

/-- Lowercasing, written on the character list. -/
def strToLower (s : String) : String := String.mk (s.data.map Char.toLower)

/-- The email setters of the schema (trim, lowercase), applied on save and
when casting an email query filter. -/
def castEmail (e : String) : String := strToLower (strTrim e)

/-- User.findOne with an email filter. -/
def findUserByEmail (email : String) (l : List UserDoc) : Option UserDoc :=
  l.find? (fun u => u.email == castEmail email)

/-- User.findById / User.findOne with an _id filter (id assumed castable). -/
def findUserById (id : String) (l : List UserDoc) : Option UserDoc :=
  l.find? (fun u => u.oid == id)

/-- Apply an update to the document with the given _id. -/
def updateUserById (id : String) (f : UserDoc → UserDoc) (l : List UserDoc) :
    List UserDoc :=
  l.map (fun u => if u.oid == id then f u else u)

/-- The update document of deleteUser, markedForDeletion set true, filtered
through the schema: mongoose strict mode drops the path because it is not
declared in `userSchema`. -/
def applyMarkedForDeletionUpdate (d : UserDoc) : UserDoc :=
  if (userSchema.map SchemaField.name).contains "markedForDeletion" then
    { d with markedForDeletion := some true }
  else d

/-- The message of the CastError mongoose throws when an _id filter value is
not a valid ObjectId; its exact text only matters in that it is none of the
messages the catch blocks match on. -/
def castErrMsg (id : String) : String :=
  "Cast to ObjectId failed for value " ++ id ++ " at path _id for model User"

/-- One scheduled setTimeout action: the deferred deletion deleteUser would
register (delete the User record, delete the liked-emails record keyed by
the user email, clear both session cookies on the stale response). -/
structure Deferred where
  delayMs : Nat
  targetId : String
  targetEmail : String
deriving DecidableEq, Repr

/- ------------------------------------------------------------------ -/
/- deleteUser (src/Controllers/User.js lines 288-345)                  -/
/- ------------------------------------------------------------------ -/

/-- The catch block of deleteUser: res.status(500).json with an error field
holding err.message — the thrown message itself, not a generic text. -/
def deleteUserCatch (m : String) : Response :=
  { status := 500, body := .err m }

/-- deleteUser.  Inputs: id (path param), email and otp (body), the store.
Output: new store, response, and the list of setTimeout actions scheduled
by this call. -/
def deleteUser (env : Env) (exn : Option String) (id email otp : String)
    (db : DB) : DB × Response × List Deferred :=
  match exn with
  | some m => (db, deleteUserCatch m, [])
  | none =>
    if !env.isValidObjectId id then
      (db, deleteUserCatch (castErrMsg id), [])
    else
      match findUserById id db.users with
      | none => (db, { status := 409, body := .str "No such user found" }, [])
      | some userDetails =>
        if userDetails.isVerified then
          match db.otps.find? (fun r => r.email == email && r.otp == otp) with
          | some _ =>
            let db1 : DB :=
              { db with users :=
                  updateUserById id applyMarkedForDeletionUpdate db.users }
            let scheduled : List Deferred :=
              if userDetails.markedForDeletion == some true then
                [ { delayMs := 1000 * 60 * 60, targetId := id,
                    targetEmail := userDetails.email } ]
              else []
            (db1,
             { status := 200, body := .str "User Deleted Successfully" },
             scheduled)
          | none =>
            (db, { status := 400, body := .str "OTP doesn\x27t match" }, [])
        else
          (db, { status := 401, body := .str "Verify Your Email" }, [])

/- ------------------------------------------------------------------ -/
/- register (src/Controllers/User.js lines 13-76)                      -/
/- ------------------------------------------------------------------ -/

/-- The cookie register and login set for the access token: secure,
sameSite strict, maxAge 20 minutes. -/
def accessCookie (v : String) : Cookie :=
  { name := "AccessToken", value := v, secure := true,
    sameSiteStrict := true, maxAgeMs := some (20 * 60 * 1000) }

/-- The cookie register and login set for the refresh token: secure,
sameSite strict, maxAge 30 days. -/
def refreshCookie (v : String) : Cookie :=
  { name := "RefreshToken", value := v, secure := true,
    sameSiteStrict := true, maxAgeMs := some (30 * 24 * 60 * 60 * 1000) }

/-- The mongoose validators of `userSchema`, run when User.create saves a
document: required (a required string fails when empty), minlength and
maxlength, and the validator.isEmail check on email.  Note the password
minlength runs on the value being persisted — in register that value is
the bcrypt hash, not the plaintext password. -/
def validateUserDoc (env : Env) (d : UserDoc) : Bool :=
  d.Username != "" && decide (2 ≤ d.Username.length)
    && decide (d.Username.length ≤ 50)
    && d.email != "" && env.isEmail d.email && decide (d.email.length ≤ 50)
    && d.password != "" && decide (8 ≤ d.password.length)

/-- The unique indexes on Username and email: an insert whose Username or
email collides with a stored document fails with a duplicate-key error. -/
def uniqueOk (d : UserDoc) (l : List UserDoc) : Bool :=
  l.all (fun u => u.email != d.email && u.Username != d.Username)

structure RegisterInput where
  firstName : String
  lastName : String
  Username : String
  phoneNumber : String
  email : String
  password : String
deriving DecidableEq, Repr

/-- The catch block of register: res.status(500).json with a message field
holding the fixed generic text, whatever was thrown. -/
def registerCatch (_m : String) : Response :=
  { status := 500, body := .msg "Internal server error" }

/-- The document User.create saves in register: the schema paths of the
argument after setters (trim on Username, trim+lowercase on email);
firstName/lastName/phoneNumber are not schema paths and are dropped by
strict mode; the password path holds the bcrypt hash, the image path the
dicebear initials URL. -/
def registerNewDoc (env : Env) (salt oid : String) (inp : RegisterInput) :
    UserDoc :=
  { oid := oid
    Username := strTrim inp.Username
    email := castEmail inp.email
    password := env.bcryptHash inp.password salt
    image := "https://api.dicebear.com/5.x/initials/svg?seed="
      ++ inp.firstName ++ " " ++ inp.lastName
    isVerified := false }

/-- register.  Extra inputs make the effectful library calls explicit: the
bcrypt salt, the generated 6-digit otp, and the ObjectId the store assigns
to the new document.  firstName/lastName/phoneNumber are passed to
User.create but are not schema paths, so strict mode drops them; firstName
and lastName still reach the document through the dicebear avatar URL. -/
def register (env : Env) (exn : Option String) (salt otp oid : String)
    (inp : RegisterInput) (db : DB) : DB × Response :=
  match exn with
  | some m => (db, registerCatch m)
  | none =>
    match findUserByEmail inp.email db.users with
    | some _ =>
      (db, { status := 409,
             body := .msg
               "User already exists. Try signing up with a different email." })
    | none =>
      let newDoc := registerNewDoc env salt oid inp
      if validateUserDoc env newDoc && uniqueOk newDoc db.users then
        let db1 : DB := { db with users := db.users ++ [newDoc] }
        let db2 : DB :=
          { db1 with otps := db1.otps ++ [{ email := inp.email, otp := otp }] }
        let acc := env.accessToken newDoc.oid
        let ref := env.refreshToken newDoc.oid
        (db2, { status := 201
                body := .auth acc ref newDoc.oid newDoc.email
                cookies := [accessCookie acc, refreshCookie ref] })
      else
        (db, registerCatch "ValidationError")

/- ------------------------------------------------------------------ -/
/- login (src/Controllers/User.js lines 79-126)                        -/
/- ------------------------------------------------------------------ -/

/-- The catch block of login: res.status is called only in the two matched
branches; in every other case res.json runs with the Express default
status 200 and the generic error text. -/
def loginCatch (m : String) : Response :=
  if m == "User not found" then
    { status := 404, body := .err "User not found" }
  else if m == "Invalid credentials" then
    { status := 401, body := .err "Invalid credentials" }
  else
    { status := 200,
      body := .err "Internal server error. Please try again later." }

/-- login.  Notably there is no isVerified check anywhere on this path. -/
def login (env : Env) (exn : Option String) (email password : String)
    (db : DB) : Response :=
  match exn with
  | some m => loginCatch m
  | none =>
    match findUserByEmail email db.users with
    | none => loginCatch "User not found"
    | some user =>
      if !env.bcryptCompare password user.password then
        loginCatch "Invalid credentials"
      else
        let acc := env.accessToken user.oid
        let ref := env.refreshToken user.oid
        { status := 200
          body := .auth acc ref user.oid user.email
          cookies := [accessCookie acc, refreshCookie ref] }

/- ------------------------------------------------------------------ -/
/- updatePassword (src/Controllers/User.js lines 128-180)              -/
/- ------------------------------------------------------------------ -/

/-- The catch block of updatePassword: four matched messages set a status;
anything else keeps the Express default status 200 with the generic
error text. -/
def updatePasswordCatch (m : String) : Response :=
  if m == "User not found" then
    { status := 404, body := .err "User not found" }
  else if m == "User is not verified" then
    { status := 401, body := .err "User is not verified" }
  else if m == "New passwords do not match" then
    { status := 400, body := .err "New passwords do not match" }
  else if m == "Invalid old password" then
    { status := 401, body := .err "Invalid old password" }
  else
    { status := 200,
      body := .err "Internal server error. Please try again later." }

/-- updatePassword.  `salt` is the fresh bcrypt salt generated on the
success path.  findById on a malformed id throws a CastError, which the
catch does not match. -/
def updatePassword (env : Env) (exn : Option String)
    (id oldPassword newPassword confirmNewPassword salt : String)
    (db : DB) : DB × Response :=
  match exn with
  | some m => (db, updatePasswordCatch m)
  | none =>
    if !env.isValidObjectId id then
      (db, updatePasswordCatch (castErrMsg id))
    else
      match findUserById id db.users with
      | none => (db, updatePasswordCatch "User not found")
      | some userDetails =>
        if !userDetails.isVerified then
          (db, updatePasswordCatch "User is not verified")
        else if newPassword != confirmNewPassword then
          (db, updatePasswordCatch "New passwords do not match")
        else if !env.bcryptCompare oldPassword userDetails.password then
          (db, updatePasswordCatch "Invalid old password")
        else
          let hashedPwd := env.bcryptHash newPassword salt
          ({ db with
               users :=
                 updateUserById id
                   (fun d => { d with password := hashedPwd }) db.users },
           { status := 200, body := .msg "Password updated successfully" })

/- ------------------------------------------------------------------ -/
/- updateImage (src/Controllers/User.js lines 183-228)                 -/
/- ------------------------------------------------------------------ -/

/-- The catch block of updateImage: four matched messages set a status;
anything else keeps the Express default status 200 with the generic
error text. -/
def updateImageCatch (m : String) : Response :=
  if m == "Invalid user ID format" then
    { status := 400, body := .err "Invalid user ID format" }
  else if m == "User not found" then
    { status := 404, body := .err "User not found" }
  else if m == "User is not verified" then
    { status := 401, body := .err "User is not verified" }
  else if m == "No image file provided" then
    { status := 400, body := .err "No image file provided" }
  else
    { status := 200,
      body := .err "Internal server error. Please try again later." }

/-- updateImage.  `file` is req.file, its bytes when present.  The source
checks the id format, then user existence, then verification, and only
then the presence of the uploaded file. -/
def updateImage (env : Env) (exn : Option String) (id : String)
    (file : Option (List Nat)) (db : DB) : DB × Response :=
  match exn with
  | some m => (db, updateImageCatch m)
  | none =>
    if !env.isValidObjectId id then
      (db, updateImageCatch "Invalid user ID format")
    else
      match findUserById id db.users with
      | none => (db, updateImageCatch "User not found")
      | some userDetails =>
        if !userDetails.isVerified then
          (db, updateImageCatch "User is not verified")
        else
          match file with
          | none => (db, updateImageCatch "No image file provided")
          | some bytes =>
            let base64Image := env.base64 bytes
            ({ db with
                 users :=
                   updateUserById id
                     (fun d => { d with image := base64Image }) db.users },
             { status := 200, body := .msg "Image updated successfully" })

/- ------------------------------------------------------------------ -/
/- logout (src/Controllers/User.js lines 231-241)                      -/
/- ------------------------------------------------------------------ -/

/-- The cookie logout (and the deferred branch of deleteUser) writes to
clear a session cookie: empty value, httpOnly, expires epoch 0. -/
def clearedCookie (n : String) : Cookie :=
  { name := n, value := "", httpOnly := true, expiresEpoch0 := true }

/-- logout: no checks, clears both cookies, always 200. -/
def logout : Response :=
  { status := 200
    body := .msg "user logged out successfully"
    cookies := [clearedCookie "AccessToken", clearedCookie "RefreshToken"] }

/- ------------------------------------------------------------------ -/
/- userInfo (src/Controllers/User.js lines 244-285)                    -/
/- ------------------------------------------------------------------ -/

/-- The catch block of userInfo: four matched messages set a status;
anything else keeps the Express default status 200 with the generic
error text. -/
def userInfoCatch (m : String) : Response :=
  if m == "Invalid user ID format" then
    { status := 400, body := .err "Invalid user ID format" }
  else if m == "Invalid access token" then
    { status := 401, body := .err "Invalid access token" }
  else if m == "User not found" then
    { status := 404, body := .err "User not found" }
  else if m == "User is not verified" then
    { status := 401, body := .err "User is not verified" }
  else
    { status := 200,
      body := .err "Internal server error. Please try again later." }

/-- userInfo.  `payloadAud` is req.payload.aud, the audience claim of the
verified access token.  On success the response data is the full stored
document, hashed password field included. -/
def userInfo (env : Env) (exn : Option String) (id payloadAud : String)
    (db : DB) : Response :=
  match exn with
  | some m => userInfoCatch m
  | none =>
    if !env.isValidObjectId id then
      userInfoCatch "Invalid user ID format"
    else if payloadAud != id then
      userInfoCatch "Invalid access token"
    else
      match findUserById id db.users with
      | none => userInfoCatch "User not found"
      | some user =>
        if !user.isVerified then
          userInfoCatch "User is not verified"
        else
          { status := 200, body := .data user }

/- ------------------------------------------------------------------ -/
/- refreshroute (src/Controllers/User.js lines 347-385)                -/
/- ------------------------------------------------------------------ -/

/-- The cookies refreshroute sets: like login but also httpOnly. -/
def refreshRouteAccessCookie (v : String) : Cookie :=
  { accessCookie v with httpOnly := true }

def refreshRouteRefreshCookie (v : String) : Cookie :=
  { refreshCookie v with httpOnly := true }

/-- refreshroute.  `exn` carries the name of a thrown error (the catch
branches on error.name); `verifyRefresh` is verifyRefreshToken, returning
the user id or nothing. -/
def refreshroute (verifyRefresh : String → Option String) (env : Env)
    (exn : Option String) (cookieRefreshToken : Option String) : Response :=
  match exn with
  | some nm =>
    if nm == "JsonWebTokenError" then
      { status := 401, body := .err "Invalid refresh token" }
    else if nm == "TokenExpiredError" then
      { status := 401, body := .err "Refresh token expired" }
    else
      { status := 500, body := .err "Internal Server Error" }
  | none =>
    match cookieRefreshToken with
    | none => { status := 401, body := .err "Refresh token missing" }
    | some refreshToken =>
      match verifyRefresh refreshToken with
      | none => { status := 401, body := .err "Invalid refresh token" }
      | some userId =>
        let acc := env.accessToken userId
        let ref := env.refreshToken userId
        { status := 200
          body := .refreshPair acc ref
          cookies := [refreshRouteAccessCookie acc,
                      refreshRouteRefreshCookie ref] }

/- ------------------------------------------------------------------ -/
/- Concrete instances for evaluation                                   -/
/- ------------------------------------------------------------------ -/

/-- The password field of a response carrying a user document, if any:
makes the data exposure of userInfo observable. -/
def responsePassword (r : Response) : Option String :=
  match r.body with
  | .data u => some u.password
  | _ => none

/-- A concrete, executable instance of the external collaborators, used to
evaluate the handlers on closed inputs.  bcryptHash appends the password to
the salt behind a separator and bcryptCompare recovers the suffix, so
compare p (hash p s) holds for separator-free inputs; ObjectId validity is
the 24-character length check. -/
def modelEnv : Env where
  bcryptHash p s := s ++ "$" ++ p
  bcryptCompare p h :=
    (h.data.reverse.takeWhile (fun c => c != '$')).reverse == p.data
  isEmail e := e.data.any (fun c => c == '@')
  isValidObjectId s := s.length == 24
  accessToken uid := "acc." ++ uid
  refreshToken uid := "ref." ++ uid
  base64 bytes := "b64:" ++ String.intercalate "," (bytes.map toString)

def idA : String := "aaaaaaaaaaaaaaaaaaaaaaaa"

def idB : String := "bbbbbbbbbbbbbbbbbbbbbbbb"

/-- A stored, verified user (password field = modelEnv hash of the
plaintext secretpw1 under salt mysalt). -/
def userA : UserDoc :=
  { oid := idA, Username := "alice", email := "alice@x.com",
    password := "mysalt$secretpw1", image := "imgA", isVerified := true }

/-- A stored user that is not verified. -/
def userB : UserDoc :=
  { oid := idB, Username := "bob", email := "bob@x.com",
    password := "mysalt$secretpw2", image := "imgB", isVerified := false }

def dbEmpty : DB := { users := [], otps := [] }

/-- A store holding the verified user A, the unverified user B and one OTP
record for user A. -/
def dbAB : DB :=
  { users := [userA, userB],
    otps := [{ email := "alice@x.com", otp := "123456" }] }

/- ------------------------------------------------------------------ -/
/- Helper lemmas                                                       -/
/- ------------------------------------------------------------------ -/

lemma ne_empty_of_one_le_length {s : String} (h : 1 ≤ s.length) :
    s ≠ "" := by
  intro he
  subst he
  simp [String.length_empty] at h

lemma applyMarkedForDeletionUpdate_eq_id (d : UserDoc) :
    applyMarkedForDeletionUpdate d = d := by
  simp [applyMarkedForDeletionUpdate, userSchema]

lemma updateUserById_congr_id (i : String) (f : UserDoc → UserDoc)
    (h : ∀ d, f d = d) (l : List UserDoc) : updateUserById i f l = l := by
  unfold updateUserById
  have hfun : (fun u => if u.oid == i then f u else u) = fun u => u := by
    funext u
    rw [h]
    split <;> rfl
  rw [hfun, List.map_id']

/-- deleteUser never changes the persistent store: every early branch
returns the input store, and on the OTP-match branch the update document
only touches markedForDeletion, a path the schema does not declare, so
strict mode drops it and the updated user list equals the original. -/
lemma deleteUser_db_unchanged (env : Env) (exn : Option String)
    (id email otp : String) (db : DB) :
    (deleteUser env exn id email otp db).1 = db := by
  unfold deleteUser
  cases exn with
  | some m => rfl
  | none =>
    by_cases hid : env.isValidObjectId id
    · simp only [hid, Bool.not_true, Bool.false_eq_true, if_false]
      cases hu : findUserById id db.users with
      | none => rfl
      | some u =>
        by_cases hver : u.isVerified
        · simp only [hver, if_true]
          cases hotp :
              db.otps.find? (fun r => r.email == email && r.otp == otp) with
          | none => rfl
          | some r =>
            simp only
            rw [updateUserById_congr_id id applyMarkedForDeletionUpdate
                applyMarkedForDeletionUpdate_eq_id db.users]
        · simp [hver]
    · simp [hid]

/- ------------------------------------------------------------------ -/
/- Claim theorems                                                       -/
/- ------------------------------------------------------------------ -/

/-- C1: for a delete request on an existing, verified user with a matching
(email, otp) record, deleteUser responds 200 — but it never schedules the
deferred one-shot deletion: the setTimeout is guarded by
userDetails.markedForDeletion === true on the document fetched BEFORE the
update, and no stored document carries markedForDeletion = true (the
schema does not declare the path, so writes to it never persist — the
hypothesis hm records this invariant).  The claimed always-scheduled
1-hour deferred deletion therefore never happens. -/
theorem deleteUser_otp_match_never_schedules (env : Env)
    (id email otp : String) (db : DB) (u : UserDoc) (r : OTPDoc)
    (hid : env.isValidObjectId id = true)
    (hu : findUserById id db.users = some u)
    (hver : u.isVerified = true)
    (hotp : db.otps.find? (fun q => q.email == email && q.otp == otp)
      = some r)
    (hm : u.markedForDeletion ≠ some true) :
    (deleteUser env none id email otp db).2.1
      = { status := 200, body := .str "User Deleted Successfully" }
    ∧ (deleteUser env none id email otp db).2.2 = [] := by
  have hbeq : (u.markedForDeletion == some true) = false :=
    beq_eq_false_iff_ne.mpr hm
  constructor <;>
    simp [deleteUser, hid, hu, hver, hotp, hbeq]

theorem deleteUser_otp_match_never_schedules_witness :
    (deleteUser modelEnv none idA "alice@x.com" "123456" dbAB).2.1
      = { status := 200, body := .str "User Deleted Successfully" }
    ∧ (deleteUser modelEnv none idA "alice@x.com" "123456" dbAB).2.2
      = [] :=
  deleteUser_otp_match_never_schedules modelEnv idA "alice@x.com" "123456"
    dbAB userA { email := "alice@x.com", otp := "123456" }
    (by decide) (by decide) (by decide) (by decide) (by decide)

/-- C5: for a delete request on an existing, verified user where no OTP
record matches the submitted (email, otp), deleteUser returns 400 with
body "OTP doesn't match", leaves the store (users and otps) exactly as it
was, and schedules no deferred action. -/
theorem deleteUser_otp_mismatch_no_mutation (env : Env)
    (id email otp : String) (db : DB) (u : UserDoc)
    (hid : env.isValidObjectId id = true)
    (hu : findUserById id db.users = some u)
    (hver : u.isVerified = true)
    (hotp : db.otps.find? (fun q => q.email == email && q.otp == otp)
      = none) :
    deleteUser env none id email otp db
      = (db, { status := 400, body := .str "OTP doesn\x27t match" }, []) := by
  simp [deleteUser, hid, hu, hver, hotp]

theorem deleteUser_otp_mismatch_no_mutation_witness :
    deleteUser modelEnv none idA "alice@x.com" "999999" dbAB
      = (dbAB, { status := 400, body := .str "OTP doesn\x27t match" }, []) :=
  deleteUser_otp_mismatch_no_mutation modelEnv idA "alice@x.com" "999999"
    dbAB userA (by decide) (by decide) (by decide) (by decide)

/-- C6 counterexample: the User schema of src/model/User.model.js declares
no markedForDeletion field at all — its paths are exactly Username, email,
password, image, isVerified. -/
theorem userSchema_lacks_markedForDeletion :
    (userSchema.map SchemaField.name).contains "markedForDeletion" = false
    ∧ userSchema.map SchemaField.name
      = ["Username", "email", "password", "image", "isVerified"] := by
  constructor <;> decide

/-- C6 amended: the schema declares isVerified as a required Boolean
defaulting to false, but declares no markedForDeletion field; consequently
deleteUser's update setting markedForDeletion = true is dropped (strict
mode) and deleteUser never changes the persistent store at all. -/
theorem userSchema_isVerified_but_update_dropped :
    userSchema.map SchemaField.name
      = ["Username", "email", "password", "image", "isVerified"]
    ∧ (∃ f ∈ userSchema, f.name = "isVerified" ∧ f.kind = .fbool
        ∧ f.boolDefault = some false ∧ f.required = true)
    ∧ (∀ d, applyMarkedForDeletionUpdate d = d)
    ∧ ∀ (env : Env) (exn : Option String) (id email otp : String) (db : DB),
        (deleteUser env exn id email otp db).1 = db := by
  refine ⟨by decide, ⟨userSchema.get ⟨4, by decide⟩, by decide, by decide⟩,
    applyMarkedForDeletionUpdate_eq_id, deleteUser_db_unchanged⟩

/-- C4: userInfo checks its preconditions in this order — id well-formed
(else 400 "Invalid user ID format"), token audience claim equal to the
path id (else 401 "Invalid access token", regardless of whether the user
exists), user exists (else 404), user verified (else 401) — and when all
hold it returns 200 whose data is the full stored document, hashed
password field included. -/
theorem userInfo_precondition_order (env : Env) (id aud : String)
    (db : DB) :
    (env.isValidObjectId id = false →
      userInfo env none id aud db
        = { status := 400, body := .err "Invalid user ID format" })
    ∧ (env.isValidObjectId id = true → aud ≠ id →
      userInfo env none id aud db
        = { status := 401, body := .err "Invalid access token" })
    ∧ (env.isValidObjectId id = true → aud = id →
      findUserById id db.users = none →
      userInfo env none id aud db
        = { status := 404, body := .err "User not found" })
    ∧ (∀ u, env.isValidObjectId id = true → aud = id →
      findUserById id db.users = some u → u.isVerified = false →
      userInfo env none id aud db
        = { status := 401, body := .err "User is not verified" })
    ∧ (∀ u, env.isValidObjectId id = true → aud = id →
      findUserById id db.users = some u → u.isVerified = true →
      userInfo env none id aud db = { status := 200, body := .data u }
      ∧ responsePassword (userInfo env none id aud db)
          = some u.password) := by
  refine ⟨fun hid => ?_, fun hid hne => ?_, fun hid he hu => ?_,
    fun u hid he hu hver => ?_, fun u hid he hu hver => ?_⟩
  · simp [userInfo, userInfoCatch, hid]
  · simp [userInfo, userInfoCatch, hid, bne_iff_ne.mpr hne]
  · subst he
    simp [userInfo, userInfoCatch, hid, hu]
  · subst he
    simp [userInfo, userInfoCatch, hid, hu, hver]
  · subst he
    constructor <;> simp [userInfo, responsePassword, hid, hu, hver]

theorem userInfo_precondition_order_witness :
    userInfo modelEnv none idA idA dbAB
      = { status := 200, body := .data userA }
    ∧ responsePassword (userInfo modelEnv none idA idA dbAB)
      = some userA.password :=
  (userInfo_precondition_order modelEnv idA idA dbAB).2.2.2.2 userA
    (by decide) rfl (by decide) (by decide)

/-- C7: updatePassword checks its preconditions in this order — user
exists (else 404 "User not found"), user verified (else 401 "User is not
verified"), newPassword equals confirmNewPassword (else 400, for every
unequal pair), old password matches the stored hash (else 401 "Invalid
old password") — and on success persists the fresh-salt hash of
newPassword and returns 200.  (The id is assumed castable: a malformed id
raises a CastError instead, taken up in the error-taxonomy theorem.) -/
theorem updatePassword_precondition_order (env : Env)
    (id oldP newP confP salt : String) (db : DB)
    (hid : env.isValidObjectId id = true) :
    (findUserById id db.users = none →
      updatePassword env none id oldP newP confP salt db
        = (db, { status := 404, body := .err "User not found" }))
    ∧ (∀ u, findUserById id db.users = some u → u.isVerified = false →
      updatePassword env none id oldP newP confP salt db
        = (db, { status := 401, body := .err "User is not verified" }))
    ∧ (∀ u, findUserById id db.users = some u → u.isVerified = true →
      newP ≠ confP →
      updatePassword env none id oldP newP confP salt db
        = (db, { status := 400,
                 body := .err "New passwords do not match" }))
    ∧ (∀ u, findUserById id db.users = some u → u.isVerified = true →
      newP = confP → env.bcryptCompare oldP u.password = false →
      updatePassword env none id oldP newP confP salt db
        = (db, { status := 401, body := .err "Invalid old password" }))
    ∧ (∀ u, findUserById id db.users = some u → u.isVerified = true →
      newP = confP → env.bcryptCompare oldP u.password = true →
      updatePassword env none id oldP newP confP salt db
        = ({ db with
               users :=
                 updateUserById id
                   (fun d => { d with password := env.bcryptHash newP salt })
                   db.users },
           { status := 200,
             body := .msg "Password updated successfully" })) := by
  refine ⟨fun hu => ?_, fun u hu hver => ?_, fun u hu hver hne => ?_,
    fun u hu hver he hcmp => ?_, fun u hu hver he hcmp => ?_⟩
  · simp [updatePassword, updatePasswordCatch, hid, hu]
  · simp [updatePassword, updatePasswordCatch, hid, hu, hver]
  · simp [updatePassword, updatePasswordCatch, hid, hu, hver,
      bne_iff_ne.mpr hne]
  · subst he
    simp [updatePassword, updatePasswordCatch, hid, hu, hver, hcmp]
  · subst he
    simp [updatePassword, hid, hu, hver, hcmp]

theorem updatePassword_precondition_order_witness :
    updatePassword modelEnv none idA "secretpw1" "newpw9999" "newpw9999"
        "s2" dbAB
      = ({ dbAB with
             users :=
               updateUserById idA
                 (fun d =>
                   { d with password := modelEnv.bcryptHash "newpw9999" "s2" })
                 dbAB.users },
         { status := 200,
           body := .msg "Password updated successfully" }) :=
  (updatePassword_precondition_order modelEnv idA "secretpw1" "newpw9999"
      "newpw9999" "s2" dbAB (by decide)).2.2.2.2 userA
    (by decide) (by decide) rfl (by decide)

/-- C8 counterexample: the claim says updateImage returns 400 whenever the
uploaded file is absent, but with an absent file and a nonexistent user the
handler returns 404 — the file check runs only after the existence and
verification checks. -/
theorem updateImage_absent_file_not_400 :
    (updateImage modelEnv none idA none dbEmpty).2.status = 404
    ∧ ((updateImage modelEnv none idA none dbEmpty).2.status == 400)
      = false := by
  constructor <;> decide

/-- C8 amended: updateImage checks, in this order, id well-formed (else
400), user exists (else 404), user verified (else 401 — an existing
unverified user always gets 401, never 200), file present (else 400 —
hence the absent-file 400 occurs only when the user exists and is
verified); on success it stores the base64 encoding of the uploaded bytes
as the avatar field and returns 200. -/
theorem updateImage_check_order (env : Env) (id : String)
    (file : Option (List Nat)) (db : DB) :
    (env.isValidObjectId id = false →
      updateImage env none id file db
        = (db, { status := 400, body := .err "Invalid user ID format" }))
    ∧ (env.isValidObjectId id = true → findUserById id db.users = none →
      updateImage env none id file db
        = (db, { status := 404, body := .err "User not found" }))
    ∧ (∀ u, env.isValidObjectId id = true →
      findUserById id db.users = some u → u.isVerified = false →
      updateImage env none id file db
        = (db, { status := 401, body := .err "User is not verified" }))
    ∧ (∀ u, env.isValidObjectId id = true →
      findUserById id db.users = some u → u.isVerified = true →
      file = none →
      updateImage env none id file db
        = (db, { status := 400, body := .err "No image file provided" }))
    ∧ (∀ u bytes, env.isValidObjectId id = true →
      findUserById id db.users = some u → u.isVerified = true →
      file = some bytes →
      updateImage env none id file db
        = ({ db with
               users :=
                 updateUserById id
                   (fun d => { d with image := env.base64 bytes }) db.users },
           { status := 200,
             body := .msg "Image updated successfully" })) := by
  refine ⟨fun hid => ?_, fun hid hu => ?_, fun u hid hu hver => ?_,
    fun u hid hu hver hf => ?_, fun u bytes hid hu hver hf => ?_⟩
  · simp [updateImage, updateImageCatch, hid]
  · simp [updateImage, updateImageCatch, hid, hu]
  · simp [updateImage, updateImageCatch, hid, hu, hver]
  · subst hf
    simp [updateImage, updateImageCatch, hid, hu, hver]
  · subst hf
    simp [updateImage, hid, hu, hver]

theorem updateImage_check_order_witness :
    updateImage modelEnv none idA (some [1, 2, 3]) dbAB
      = ({ dbAB with
             users :=
               updateUserById idA
                 (fun d => { d with image := modelEnv.base64 [1, 2, 3] })
                 dbAB.users },
         { status := 200,
           body := .msg "Image updated successfully" }) :=
  (updateImage_check_order modelEnv idA (some [1, 2, 3]) dbAB).2.2.2.2
    userA [1, 2, 3] (by decide) (by decide) (by decide) rfl

/-- C3 counterexample: deleteUser's catch-all 500 is not a generic message
— its body is exactly the internal error's message text, whatever was
thrown (two different internal errors produce two different bodies, each
echoing the thrown text verbatim). -/
theorem deleteUser_catch_leaks_message :
    (deleteUser modelEnv (some "boom") idA "e" "o" dbEmpty).2.1
      = { status := 500, body := .err "boom" }
    ∧ (deleteUser modelEnv (some "zap") idA "e" "o" dbEmpty).2.1
      = { status := 500, body := .err "zap" } :=
  ⟨rfl, rfl⟩

/-- C3 amended: unanticipated failures (messages outside the handler's
enumerated taxonomy) are mapped as follows — register responds 500 with
the fixed generic message; login, updatePassword, updateImage and userInfo
respond with the fixed generic message but never call res.status on that
path, so the response keeps the framework default status 200; refreshroute
responds 500 with its fixed generic message; deleteUser alone responds 500
with a body carrying the internal error's message text, leaking it. -/
theorem unanticipated_failure_responses (env : Env) (m : String) :
    (∀ (salt otp oid : String) (inp : RegisterInput) (db : DB),
      register env (some m) salt otp oid inp db
        = (db, { status := 500, body := .msg "Internal server error" }))
    ∧ (m ≠ "User not found" → m ≠ "Invalid credentials" →
      ∀ (email password : String) (db : DB),
        login env (some m) email password db
          = { status := 200,
              body :=
                .err "Internal server error. Please try again later." })
    ∧ (m ≠ "User not found" → m ≠ "User is not verified" →
      m ≠ "New passwords do not match" → m ≠ "Invalid old password" →
      ∀ (id o n c salt : String) (db : DB),
        updatePassword env (some m) id o n c salt db
          = (db, { status := 200,
                   body :=
                     .err "Internal server error. Please try again later." }))
    ∧ (m ≠ "Invalid user ID format" → m ≠ "User not found" →
      m ≠ "User is not verified" → m ≠ "No image file provided" →
      ∀ (id : String) (file : Option (List Nat)) (db : DB),
        updateImage env (some m) id file db
          = (db, { status := 200,
                   body :=
                     .err "Internal server error. Please try again later." }))
    ∧ (m ≠ "Invalid user ID format" → m ≠ "Invalid access token" →
      m ≠ "User not found" → m ≠ "User is not verified" →
      ∀ (id aud : String) (db : DB),
        userInfo env (some m) id aud db
          = { status := 200,
              body :=
                .err "Internal server error. Please try again later." })
    ∧ (m ≠ "JsonWebTokenError" → m ≠ "TokenExpiredError" →
      ∀ (vr : String → Option String) (tok : Option String),
        refreshroute vr env (some m) tok
          = { status := 500, body := .err "Internal Server Error" })
    ∧ (∀ (id email otp : String) (db : DB),
      deleteUser env (some m) id email otp db
        = (db, { status := 500, body := .err m }, [])) := by
  refine ⟨fun salt otp oid inp db => rfl,
    fun h1 h2 email password db => ?_,
    fun h1 h2 h3 h4 id o n c salt db => ?_,
    fun h1 h2 h3 h4 id file db => ?_,
    fun h1 h2 h3 h4 id aud db => ?_,
    fun h1 h2 vr tok => ?_,
    fun id email otp db => rfl⟩
  · simp [login, loginCatch, beq_eq_false_iff_ne.mpr h1,
      beq_eq_false_iff_ne.mpr h2]
  · simp [updatePassword, updatePasswordCatch, beq_eq_false_iff_ne.mpr h1,
      beq_eq_false_iff_ne.mpr h2, beq_eq_false_iff_ne.mpr h3,
      beq_eq_false_iff_ne.mpr h4]
  · simp [updateImage, updateImageCatch, beq_eq_false_iff_ne.mpr h1,
      beq_eq_false_iff_ne.mpr h2, beq_eq_false_iff_ne.mpr h3,
      beq_eq_false_iff_ne.mpr h4]
  · simp [userInfo, userInfoCatch, beq_eq_false_iff_ne.mpr h1,
      beq_eq_false_iff_ne.mpr h2, beq_eq_false_iff_ne.mpr h3,
      beq_eq_false_iff_ne.mpr h4]
  · simp [refreshroute, beq_eq_false_iff_ne.mpr h1,
      beq_eq_false_iff_ne.mpr h2]

theorem unanticipated_failure_responses_witness :
    login modelEnv (some "boom") "e" "p" dbEmpty
      = { status := 200,
          body := .err "Internal server error. Please try again later." } :=
  (unanticipated_failure_responses modelEnv "boom").2.1
    (by decide) (by decide) "e" "p" dbEmpty

/-- A registration request whose password has only 3 characters. -/
def regInpShort : RegisterInput :=
  { firstName := "Jo", lastName := "Do", Username := "jojo",
    phoneNumber := "99", email := "jo@x.com", password := "abc" }

/-- C2 counterexample: a registration with a 3-character password is NOT
rejected at persistence time — the schema's min-8 check runs on the stored
value, which is the bcrypt hash, so the request yields 201 and a User
record is created. -/
theorem register_short_password_still_creates :
    regInpShort.password.length < 8
    ∧ (register modelEnv none "N9qo8uLO" "123456" idA regInpShort
        dbEmpty).2.status = 201
    ∧ (register modelEnv none "N9qo8uLO" "123456" idA regInpShort
        dbEmpty).1.users.length = 1 := by
  refine ⟨by decide, by decide, by decide⟩

/-- C2 amended: the schema's minimum-8-characters constraint is enforced
on the persisted password value, which register sets to the bcrypt hash of
the plaintext — never on the plaintext itself.  First conjunct: passing
validation forces only the STORED password to have length at least 8.
Second conjunct: whenever the other schema constraints hold and the hash
is at least 8 characters long (bcrypt hashes are 60 characters), register
creates the User and responds 201 with no condition whatsoever on the
plaintext password length. -/
theorem register_minlength_applies_to_hash (env : Env) :
    (∀ d, validateUserDoc env d = true → 8 ≤ d.password.length)
    ∧ ∀ (salt otp oid : String) (inp : RegisterInput) (db : DB),
        findUserByEmail inp.email db.users = none →
        2 ≤ (strTrim inp.Username).length →
        (strTrim inp.Username).length ≤ 50 →
        env.isEmail (castEmail inp.email) = true →
        (castEmail inp.email).length ≤ 50 →
        castEmail inp.email ≠ "" →
        8 ≤ (env.bcryptHash inp.password salt).length →
        uniqueOk (registerNewDoc env salt oid inp) db.users = true →
        (register env none salt otp oid inp db).2.status = 201
        ∧ (register env none salt otp oid inp db).1.users
            = db.users ++ [registerNewDoc env salt oid inp] := by
  constructor
  · intro d h
    simp only [validateUserDoc, Bool.and_eq_true, decide_eq_true_eq] at h
    exact h.2
  · intro salt otp oid inp db hfind hU2 hU50 hEml hE50 hEne hH8 huniq
    have hUne : strTrim inp.Username ≠ "" :=
      ne_empty_of_one_le_length (le_trans (by norm_num) hU2)
    have hPne : env.bcryptHash inp.password salt ≠ "" :=
      ne_empty_of_one_le_length (le_trans (by norm_num) hH8)
    have hval : validateUserDoc env (registerNewDoc env salt oid inp)
        = true := by
      simp only [validateUserDoc, registerNewDoc, Bool.and_eq_true,
        bne_iff_ne, ne_eq, decide_eq_true_eq]
      exact ⟨⟨⟨⟨⟨⟨⟨hUne, hU2⟩, hU50⟩, hEne⟩, hEml⟩, hE50⟩, hPne⟩, hH8⟩
    have hcond : (validateUserDoc env (registerNewDoc env salt oid inp)
        && uniqueOk (registerNewDoc env salt oid inp) db.users) = true := by
      rw [hval, huniq]
      rfl
    constructor <;> simp [register, hfind, hcond]

theorem register_minlength_applies_to_hash_witness :
    (register modelEnv none "saltsalt" "222222" idB regInpShort
        dbEmpty).2.status = 201
    ∧ (register modelEnv none "saltsalt" "222222" idB regInpShort
        dbEmpty).1.users
      = dbEmpty.users ++ [registerNewDoc modelEnv "saltsalt" idB
          regInpShort] :=
  (register_minlength_applies_to_hash modelEnv).2 "saltsalt" "222222" idB
    regInpShort dbEmpty (by decide) (by decide) (by decide) (by decide)
    (by decide) (by decide) (by decide) (by decide)

/-- If the submitted email (after the schema cast) already matches a
stored user, register returns 409 and leaves the store untouched. -/
lemma register_existing_email_409 (env : Env) (salt otp oid : String)
    (inp : RegisterInput) (db : DB)
    (h : (findUserByEmail inp.email db.users).isSome = true) :
    register env none salt otp oid inp db
      = (db,
         { status := 409,
           body := .msg
             "User already exists. Try signing up with a different email." })
    := by
  unfold register
  cases hf : findUserByEmail inp.email db.users with
  | none =>
    rw [hf] at h
    simp at h
  | some u => rfl

/-- A register call that answered 201 appended exactly the new document to
the users collection. -/
lemma register_201_users (env : Env) (salt otp oid : String)
    (inp : RegisterInput) (db : DB)
    (h : (register env none salt otp oid inp db).2.status = 201) :
    (register env none salt otp oid inp db).1.users
      = db.users ++ [registerNewDoc env salt oid inp] := by
  by_cases hf : (findUserByEmail inp.email db.users).isSome = true
  · rw [register_existing_email_409 env salt otp oid inp db hf] at h
    simp at h
  · have hn : findUserByEmail inp.email db.users = none :=
      Option.not_isSome_iff_eq_none.mp (by simpa using hf)
    by_cases hc : (validateUserDoc env (registerNewDoc env salt oid inp)
        && uniqueOk (registerNewDoc env salt oid inp) db.users) = true
    · simp [register, hn, hc]
    · have hcf : (validateUserDoc env (registerNewDoc env salt oid inp)
          && uniqueOk (registerNewDoc env salt oid inp) db.users)
            = false := by
        cases hx : (validateUserDoc env (registerNewDoc env salt oid inp)
            && uniqueOk (registerNewDoc env salt oid inp) db.users)
        · rfl
        · exact absurd hx hc
      have hrc : register env none salt otp oid inp db
          = (db, registerCatch "ValidationError") := by
        simp [register, hn, hcf]
      rw [hrc] at h
      simp [registerCatch] at h

/-- C9: if a registration succeeds with 201, a second registration
carrying the same email returns 409 "User already exists..." and changes
nothing: no new User record and no new OTP record are created (the store
after the second call is exactly the store after the first). -/
theorem register_duplicate_email_409 (env : Env)
    (salt otp oid salt2 otp2 oid2 : String) (inp inp2 : RegisterInput)
    (db : DB) (hsame : inp2.email = inp.email)
    (h1 : (register env none salt otp oid inp db).2.status = 201) :
    register env none salt2 otp2 oid2 inp2
        (register env none salt otp oid inp db).1
      = ((register env none salt otp oid inp db).1,
         { status := 409,
           body := .msg
             "User already exists. Try signing up with a different email." })
    := by
  apply register_existing_email_409
  rw [register_201_users env salt otp oid inp db h1]
  unfold findUserByEmail
  rw [hsame, List.find?_append]
  have hnd : ((registerNewDoc env salt oid inp).email
      == castEmail inp.email) = true := by
    simp [registerNewDoc]
  cases hfe :
      List.find? (fun u => u.email == castEmail inp.email) db.users with
  | none => simp [Option.or, List.find?, hnd]
  | some u => simp [Option.or]

def regInpC : RegisterInput :=
  { firstName := "Ch", lastName := "Ar", Username := "charlie",
    phoneNumber := "77", email := "charlie@x.com",
    password := "longenough1" }

/-- The same email submitted again, other fields different. -/
def regInpC2 : RegisterInput :=
  { firstName := "Ca", lastName := "Rl", Username := "carl",
    phoneNumber := "78", email := "charlie@x.com", password := "another9" }

theorem register_duplicate_email_409_witness :
    register modelEnv none "s2" "444444" idB regInpC2
        (register modelEnv none "saltsalt" "333333" idA regInpC dbEmpty).1
      = ((register modelEnv none "saltsalt" "333333" idA regInpC
            dbEmpty).1,
         { status := 409,
           body := .msg
             "User already exists. Try signing up with a different email." })
    :=
  register_duplicate_email_409 modelEnv "saltsalt" "333333" idA "s2"
    "444444" idB regInpC regInpC2 dbEmpty (by decide) (by decide)

/-- C10: login has no verification gate.  First conjunct: for any existing
user whose stored hash matches the submitted password, login answers 200
and issues both tokens plus both token cookies — no hypothesis on
isVerified appears.  Remaining conjuncts: updatePassword, updateImage,
userInfo and deleteUser all answer 401 for an existing unverified user. -/
theorem login_no_verification_gate (env : Env) (email password : String)
    (db : DB) (u : UserDoc)
    (hu : findUserByEmail email db.users = some u)
    (hpw : env.bcryptCompare password u.password = true) :
    login env none email password db
      = { status := 200
          body := .auth (env.accessToken u.oid) (env.refreshToken u.oid)
            u.oid u.email
          cookies := [accessCookie (env.accessToken u.oid),
                      refreshCookie (env.refreshToken u.oid)] }
    ∧ (∀ (id o n c salt : String) (db2 : DB) (v : UserDoc),
        env.isValidObjectId id = true →
        findUserById id db2.users = some v → v.isVerified = false →
        (updatePassword env none id o n c salt db2).2.status = 401)
    ∧ (∀ (id : String) (file : Option (List Nat)) (db2 : DB) (v : UserDoc),
        env.isValidObjectId id = true →
        findUserById id db2.users = some v → v.isVerified = false →
        (updateImage env none id file db2).2.status = 401)
    ∧ (∀ (id : String) (db2 : DB) (v : UserDoc),
        env.isValidObjectId id = true →
        findUserById id db2.users = some v → v.isVerified = false →
        (userInfo env none id id db2).status = 401)
    ∧ (∀ (id em ot : String) (db2 : DB) (v : UserDoc),
        env.isValidObjectId id = true →
        findUserById id db2.users = some v → v.isVerified = false →
        (deleteUser env none id em ot db2).2.1.status = 401) := by
  refine ⟨?_, fun id o n c salt db2 v hid hv hver => ?_,
    fun id file db2 v hid hv hver => ?_,
    fun id db2 v hid hv hver => ?_,
    fun id em ot db2 v hid hv hver => ?_⟩
  · simp [login, hu, hpw]
  · simp [updatePassword, updatePasswordCatch, hid, hv, hver]
  · simp [updateImage, updateImageCatch, hid, hv, hver]
  · simp [userInfo, userInfoCatch, hid, hv, hver]
  · simp [deleteUser, hid, hv, hver]

theorem login_no_verification_gate_witness :
    login modelEnv none "bob@x.com" "secretpw2" dbAB
      = { status := 200
          body := .auth (modelEnv.accessToken userB.oid)
            (modelEnv.refreshToken userB.oid) userB.oid userB.email
          cookies := [accessCookie (modelEnv.accessToken userB.oid),
                      refreshCookie (modelEnv.refreshToken userB.oid)] } :=
  (login_no_verification_gate modelEnv "bob@x.com" "secretpw2" dbAB userB
    (by decide) (by decide)).1
